import Mathlib

/-
Shallow embedding of `tempSensorScript/tempSensorScript.py`, the periodic
temperature monitor: sensor discovery and reading (`read_all_temperatures_c`),
threshold decision and GPIO write (`set_output_based_on_temps`), telemetry
payload construction (`send_temperatures`), and the poll loop (`main`).

Modelling conventions:
- Python exceptions are `Except PyError`; the effect of `GPIO.*` calls and of
  an HTTP POST (were one performed) is recorded as a list of `Event`s.
- The filesystem seen by one discovery pass is a list of
  `(path, file content)` pairs: `glob.glob(SENSOR_GLOB)` yields the paths in
  that order and reading a path yields its content.
- A temperature value `milli_c / 1000.0` is represented exactly by its
  numerator `milli_c` (the value in thousandths of a degree, type `TempC`).
  For every physically representable sensor magnitude the Python float
  `milli_c / 1000.0` rounds (under `round`, which is round-half-to-even)
  exactly as the rational `milli_c / 1000` does, since half-integers of this
  form are exactly representable as doubles and all other values are far
  closer to their rational value than to a tie; so integer arithmetic on the
  numerator is a faithful model of the float computation.
- `KeyboardInterrupt` delivery is modelled per loop iteration by an optional
  scheduled program point (`IterInput.intr`): points `0..3` are the four gaps
  around the statements of the cycle body, `4` (or more) is the
  `time.sleep` between cycles.  A signal scheduled at a body point that the
  body never reaches (because an earlier statement raised) is delivered
  during the following sleep.
-/

namespace TempSensorScript

/-- Decidable equality for `Except`, so that concrete runs of the embedded
fallible functions can be checked by `decide`. -/
instance {ε α : Type} [DecidableEq ε] [DecidableEq α] : DecidableEq (Except ε α) :=
  fun x y =>
    match x, y with
    | Except.error e, Except.error f => decidable_of_iff (e = f) (by simp)
    | Except.error _, Except.ok _ => isFalse (by simp)
    | Except.ok _, Except.error _ => isFalse (by simp)
    | Except.ok a, Except.ok b => decidable_of_iff (a = b) (by simp)

/-- Configuration constant from the script header: the glob pattern for
1-Wire temperature sensor readings. -/
def SENSOR_GLOB : String := "/sys/bus/w1/devices/28-*/temperature"

/-- Configuration constant from the script header: BCM pin number. -/
def GPIO_PIN : Nat := 17

/-- Configuration constant from the script header: threshold in whole
degrees Celsius. -/
def THRESHOLD_C : Int := 10

/-- Configuration constant from the script header: seconds between polls. -/
def POLL_INTERVAL_SECONDS : Nat := 60

/-- Configuration constant from the script header: telemetry endpoint. -/
def API_URL : String := "https://example.com/temperature"

/-- Configuration constant from the script header: optional bearer token;
`None` in the source. -/
def API_TOKEN : Option String := none

/-- Python exceptions that the script can raise, with their messages. -/
inductive PyError where
  | fileNotFoundError (msg : String)
  | valueError (msg : String)
  | indexError (msg : String)
  | keyError (key : String)
deriving DecidableEq

/-- Observable side effects of one run: `GPIO.setup(..., initial=GPIO.LOW)`,
`GPIO.output(GPIO_PIN, level)` (with `high = true` for `GPIO.HIGH`),
an HTTP POST via `requests.post` (never emitted: the call is commented out
in the source), the `logging.error` in the per-cycle handler, and
`GPIO.cleanup()`. -/
inductive Event where
  | setup
  | write (high : Bool)
  | httpPost
  | errLog (e : PyError)
  | cleanup
deriving DecidableEq

/-- Whether an event is a GPIO output write. -/
def isWrite : Event → Bool
  | Event.write _ => true
  | _ => false

/-- Characters removed by Python `str.strip()` (ASCII whitespace). -/
def isPySpace (c : Char) : Bool :=
  c = ' ' || c = '\t' || c = '\n' || c = '\r' || c = '\x0b' || c = '\x0c'

/-- Python `str.strip()`. -/
def pyStrip (s : String) : String :=
  String.mk (((s.toList.dropWhile isPySpace).reverse.dropWhile isPySpace).reverse)

/-- Python `str.split(sep)` for a one-character separator, over the
character list (e.g. `"/a/b".split("/") == ["", "a", "b"]`). -/
def splitOnChar (sep : Char) : List Char → List (List Char)
  | [] => [[]]
  | c :: rest =>
    match splitOnChar sep rest with
    | [] => [[c]]
    | g :: gs => if c = sep then [] :: g :: gs else (c :: g) :: gs

/-- Python `path.split("/")`. -/
def pySplitSlash (s : String) : List String :=
  (splitOnChar '/' s.toList).map String.mk

/-- Digit-run parsing used by Python `int(str)` in base 10: digits with
single underscores allowed between digits only.  `acc` is the value read so
far and `lastWasDigit` records whether the previous character was a digit. -/
def pyDigits : List Char → Nat → Bool → Option Nat
  | [], acc, lastWasDigit => if lastWasDigit then some acc else none
  | c :: rest, acc, lastWasDigit =>
    if c.isDigit then pyDigits rest (acc * 10 + (c.toNat - 48)) true
    else if c = '_' && lastWasDigit then pyDigits rest acc false
    else none

/-- Python `int(str)` for base 10 (ASCII): optional surrounding whitespace,
optional sign, then a digit run; `none` models the `ValueError` raised on
any other input. -/
def pythonInt (s : String) : Option Int :=
  match (pyStrip s).toList with
  | '+' :: rest => (pyDigits rest 0 false).map (fun n => (n : Int))
  | '-' :: rest => (pyDigits rest 0 false).map (fun n => -(n : Int))
  | cs => (pyDigits cs 0 false).map (fun n => (n : Int))

/-- `path.split("/")[-2]`: the second-to-last component, e.g. the sensor
directory `28-3c01d075c5ff`; a Python `IndexError` if there are fewer than
two components. -/
def sensorDirOf (path : String) : Except PyError String :=
  match (pySplitSlash path).reverse with
  | _ :: d :: _ => Except.ok d
  | _ => Except.error (PyError.indexError "list index out of range")

/-- Exact value of the Python float `milli / 1000.0` in degrees Celsius,
represented by its numerator in thousandths of a degree (see the modelling
note at the top of the file). -/
structure TempC where
  milli : Int
deriving DecidableEq

/-- Python dict assignment `d[k] = v`: an existing key keeps its position
and gets the new value, a new key is appended in insertion order. -/
def dictInsert {α : Type} (d : List (String × α)) (k : String) (v : α) :
    List (String × α) :=
  if d.any (fun p => p.1 = k) then
    d.map (fun p => if p.1 = k then (k, v) else p)
  else d ++ [(k, v)]

/-- Python dict lookup `d[k]` as an `Option` (`none` models `KeyError`). -/
def dictGet {α : Type} (d : List (String × α)) (k : String) : Option α :=
  (d.find? (fun p => p.1 = k)).map Prod.snd

/-- Loop body of `read_all_temperatures_c`: for each discovered `path` take
`sensor_dir = path.split("/")[-2]`, strip the file content, parse it with
`int`, and store `milli_c / 1000.0` under `sensor_dir`. -/
def readAllGo : List (String × String) → List (String × TempC) →
    Except PyError (List (String × TempC))
  | [], temps => Except.ok temps
  | (path, content) :: rest, temps =>
    match sensorDirOf path with
    | Except.error e => Except.error e
    | Except.ok sensor_dir =>
      let raw := pyStrip content
      match pythonInt raw with
      | none => Except.error (PyError.valueError
          ("Could not parse temperature from '" ++ raw ++ "' for " ++ sensor_dir))
      | some milli_c => readAllGo rest (dictInsert temps sensor_dir ⟨milli_c⟩)

/-- `read_all_temperatures_c()`: raises `FileNotFoundError` when the glob
matches no path, otherwise reads every discovered sensor; `entries` is the
discovery pass, pairing each globbed path with its file content. -/
def read_all_temperatures_c (entries : List (String × String)) :
    Except PyError (List (String × TempC)) :=
  if entries.isEmpty then
    Except.error (PyError.fileNotFoundError ("No sensors found matching " ++ SENSOR_GLOB))
  else readAllGo entries []

/-- Python 3 `round` applied to the value `t.milli / 1000`: round to the
nearest integer, ties to the even neighbour (banker's rounding). -/
def pythonRound (t : TempC) : Int :=
  let f := t.milli / 1000
  let r := t.milli % 1000
  if r < 500 then f
  else if 500 < r then f + 1
  else if f % 2 = 0 then f else f + 1

/-- The dict comprehension in `main`:
`{sid: int(round(temp)) for sid, temp in temps_c.items()}`. -/
def tempsIntOf (temps_c : List (String × TempC)) : List (String × Int) :=
  temps_c.map (fun p => (p.1, pythonRound p.2))

/-- Python `min(iterable)` over the values of a dict, `none` on an empty
iterable (where CPython raises `ValueError`). -/
def pyMinList : List Int → Option Int
  | [] => none
  | x :: xs => some (xs.foldl min x)

/-- `set_output_based_on_temps(temps_int)`: take the minimum value of the
dict, drive the pin HIGH iff it is strictly below the threshold, and return
the minimum.  The threshold is the `THRESHOLD_C` configuration constant,
taken as a parameter.  Raises `ValueError` (from `min`) on an empty dict,
before any GPIO write. -/
def set_output_based_on_temps (THRESHOLD_C : Int) (temps_int : List (String × Int)) :
    Except PyError (List Event × Int) :=
  match pyMinList (temps_int.map Prod.snd) with
  | none => Except.error (PyError.valueError "min() arg is an empty sequence")
  | some min_temp =>
    if min_temp < THRESHOLD_C then Except.ok ([Event.write true], min_temp)
    else Except.ok ([Event.write false], min_temp)

/-- One element of the `sensors` list of the JSON payload. -/
structure SensorEntry where
  id : String
  temperature_c : TempC
  temperature_int_c : Int
deriving DecidableEq

/-- The JSON payload built by `send_temperatures`. -/
structure Payload where
  unit : String
  sensors : List SensorEntry
  min_temperature_int_c : Int
deriving DecidableEq

/-- Python truthiness of the optional `API_TOKEN` (`if API_TOKEN:`):
`None` and the empty string are falsy. -/
def pyTruthy : Option String → Bool
  | none => false
  | some s => s ≠ ""

/-- The `sensors_payload` loop of `send_temperatures`: one entry per key of
`temps_c` in iteration order, looking the rounded value up in `temps_int`
(`KeyError` if absent, which cannot happen for the dicts built in `main`). -/
def sendGo (temps_int : List (String × Int)) :
    List (String × TempC) → Except PyError (List SensorEntry)
  | [] => Except.ok []
  | (sensor_id, tc) :: rest =>
    match dictGet temps_int sensor_id with
    | none => Except.error (PyError.keyError sensor_id)
    | some ti =>
      (sendGo temps_int rest).map (fun l => ⟨sensor_id, tc, ti⟩ :: l)

/-- `send_temperatures(temps_c, temps_int, min_temp_int)`: builds the header
dict (`Content-Type`, plus `Authorization: Bearer <token>` iff the token is
truthy) and the JSON payload, and returns the HTTP requests actually
performed - the empty list, because the `requests.post` call and its
`try/except` are commented out in the source.  `API_TOKEN` is the
configuration constant, taken as a parameter. -/
def send_temperatures (API_TOKEN : Option String) (temps_c : List (String × TempC))
    (temps_int : List (String × Int)) (min_temp_int : Int) :
    Except PyError (List (String × String) × Payload × List Event) :=
  let headers :=
    if pyTruthy API_TOKEN then
      [("Content-Type", "application/json"),
       ("Authorization", "Bearer " ++ API_TOKEN.getD "")]
    else [("Content-Type", "application/json")]
  match sendGo temps_int temps_c with
  | Except.error e => Except.error e
  | Except.ok sensors_payload =>
    Except.ok (headers, ⟨"C", sensors_payload, min_temp_int⟩, [])

/-- External input to one iteration of the poll loop: the scheduled
`KeyboardInterrupt` point (see the modelling note at the top) and the
filesystem contents seen by this iteration's discovery pass. -/
structure IterInput where
  intr : Option Nat
  entries : List (String × String)

/-- Outcome of one execution of the cycle body. -/
inductive CycleRes where
  | completed
  | errored (e : PyError)
  | interrupted
deriving DecidableEq

/-- One execution of the body of the inner `try` of `main`:
`read_all_temperatures_c`, the rounding comprehension,
`set_output_based_on_temps`, `send_temperatures`.  An ordinary exception is
caught by the inner `except Exception` handler and logged (`errored`); a
`KeyboardInterrupt` at body points `0..3` escapes that handler
(`interrupted`). -/
def runCycle (THRESHOLD_C : Int) (API_TOKEN : Option String) (inp : IterInput) :
    List Event × CycleRes :=
  if inp.intr = some 0 then ([], CycleRes.interrupted) else
  match read_all_temperatures_c inp.entries with
  | Except.error e => ([Event.errLog e], CycleRes.errored e)
  | Except.ok temps_c =>
    if inp.intr = some 1 then ([], CycleRes.interrupted) else
    let temps_int := tempsIntOf temps_c
    if inp.intr = some 2 then ([], CycleRes.interrupted) else
    match set_output_based_on_temps THRESHOLD_C temps_int with
    | Except.error e => ([Event.errLog e], CycleRes.errored e)
    | Except.ok (evs, min_temp_int) =>
      if inp.intr = some 3 then (evs, CycleRes.interrupted) else
      match send_temperatures API_TOKEN temps_c temps_int min_temp_int with
      | Except.error e => (evs ++ [Event.errLog e], CycleRes.errored e)
      | Except.ok (_, _, reqs) => (evs ++ reqs, CycleRes.completed)

/-- Whether a pending `KeyboardInterrupt` is delivered during the
`time.sleep` after the cycle: a signal scheduled at point `4` or later, or
one scheduled at a body point the body never reached because an earlier
statement raised. -/
def sleepInterrupt (intr : Option Nat) (res : CycleRes) : Bool :=
  match intr, res with
  | none, _ => false
  | some _, CycleRes.errored _ => true
  | some k, _ => 4 ≤ k

/-- The `while True` loop of `main`: run the cycle body; a
`KeyboardInterrupt` (in the body or in the sleep) breaks out to the outer
handler and the `finally` block runs `GPIO.cleanup()`.  `none` means no
iteration was interrupted, i.e. the real loop would still be running. -/
def runLoop (THRESHOLD_C : Int) (API_TOKEN : Option String) :
    List IterInput → Option (List Event)
  | [] => none
  | inp :: rest =>
    let (evs, res) := runCycle THRESHOLD_C API_TOKEN inp
    match res with
    | CycleRes.interrupted => some (evs ++ [Event.cleanup])
    | r =>
      if sleepInterrupt inp.intr r then some (evs ++ [Event.cleanup])
      else (runLoop THRESHOLD_C API_TOKEN rest).map (fun t => evs ++ t)

/-- `main()`: `setup_gpio()` (which runs `GPIO.setup(GPIO_PIN, GPIO.OUT,
initial=GPIO.LOW)`, forcing the safe LOW default), then the poll loop, with
`GPIO.cleanup()` in the `finally` block on every termination path. -/
def main (THRESHOLD_C : Int) (API_TOKEN : Option String) (inputs : List IterInput) :
    Option (List Event) :=
  (runLoop THRESHOLD_C API_TOKEN inputs).map (fun t => Event.setup :: t)

/-- Modelled from the spec: rounding to the nearest integer with ties
rounded away from zero, the rule the specification states for the
conversion of a raw reading (in thousandths) to whole degrees.  Used only
to compare the specified rule against the code's `pythonRound`. -/
def roundHalfAwayFromZero (t : TempC) : Int :=
  if 0 ≤ t.milli then (t.milli + 500) / 1000
  else -((-t.milli + 500) / 1000)

/-- A discovery entry whose raw file content parses under Python `int`. -/
def parsesOk (e : String × String) : Bool :=
  (pythonInt (pyStrip e.2)).isSome

/-- A discovery entry whose path has a second-to-last component, as every
match of `SENSOR_GLOB` does. -/
def pathOk (e : String × String) : Bool :=
  match sensorDirOf e.1 with
  | Except.ok _ => true
  | Except.error _ => false

lemma foldl_min_le_init (xs : List Int) (a : Int) : xs.foldl min a ≤ a := by
  induction xs generalizing a with
  | nil => exact le_refl a
  | cons x xs ih => exact le_trans (ih (min a x)) (min_le_left a x)

lemma foldl_min_le_of_mem (xs : List Int) (a : Int) :
    ∀ x ∈ xs, xs.foldl min a ≤ x := by
  induction xs generalizing a with
  | nil => intro x hx; cases hx
  | cons y ys ih =>
    intro x hx
    rcases List.mem_cons.mp hx with rfl | hx
    · exact le_trans (foldl_min_le_init ys (min a x)) (min_le_right a x)
    · exact ih (min a y) x hx

lemma foldl_min_mem (xs : List Int) (a : Int) :
    xs.foldl min a = a ∨ xs.foldl min a ∈ xs := by
  induction xs generalizing a with
  | nil => exact Or.inl rfl
  | cons y ys ih =>
    rcases ih (min a y) with h | h
    · rcases min_choice a y with hm | hm
      · exact Or.inl (by rw [List.foldl_cons, h, hm])
      · exact Or.inr (by rw [List.foldl_cons, h, hm]; exact List.mem_cons_self y ys)
    · exact Or.inr (List.mem_cons_of_mem y h)

lemma pyMinList_eq_some_of_ne_nil {l : List Int} (h : l ≠ []) :
    ∃ m, pyMinList l = some m := by
  cases l with
  | nil => exact absurd rfl h
  | cons x xs => exact ⟨xs.foldl min x, rfl⟩

lemma pyMinList_mem {l : List Int} {m : Int} (h : pyMinList l = some m) : m ∈ l := by
  cases l with
  | nil => cases h
  | cons x xs =>
    have hm : xs.foldl min x = m := by simpa [pyMinList] using h
    rcases foldl_min_mem xs x with h' | h'
    · rw [← hm, h']; exact List.mem_cons_self x xs
    · rw [← hm]; exact List.mem_cons_of_mem x h'

lemma pyMinList_le {l : List Int} {m : Int} (h : pyMinList l = some m) :
    ∀ x ∈ l, m ≤ x := by
  cases l with
  | nil => cases h
  | cons x xs =>
    have hm : xs.foldl min x = m := by simpa [pyMinList] using h
    intro y hy
    rcases List.mem_cons.mp hy with rfl | hy
    · rw [← hm]; exact foldl_min_le_init xs y
    · rw [← hm]; exact foldl_min_le_of_mem xs x y hy

lemma pyMinList_perm {l l' : List Int} (h : l.Perm l') :
    pyMinList l = pyMinList l' := by
  rcases eq_or_ne l [] with rfl | hne
  · rw [h.symm.eq_nil]
  · have hne' : l' ≠ [] := fun e => hne ((e ▸ h).eq_nil)
    obtain ⟨m, hm⟩ := pyMinList_eq_some_of_ne_nil hne
    obtain ⟨m', hm'⟩ := pyMinList_eq_some_of_ne_nil hne'
    rw [hm, hm']
    have h1 : m ≤ m' := pyMinList_le hm m' (h.mem_iff.mpr (pyMinList_mem hm'))
    have h2 : m' ≤ m := pyMinList_le hm' m (h.mem_iff.mp (pyMinList_mem hm))
    exact congrArg some (le_antisymm h1 h2)

/-- C1: for every non-empty sample of rounded per-probe temperatures and
every threshold, `set_output_based_on_temps` selects the minimum of the
values, drives the pin HIGH (`active = true`) iff that minimum is strictly
below the threshold (so a minimum equal to the threshold drives it LOW),
and the result is invariant under permutation of the probe enumeration. -/
theorem C1_decide_min_strict_threshold_order_independent
    (THRESHOLD_C : Int) (temps_int : List (String × Int)) (h : temps_int ≠ []) :
    (∃ min_temp, set_output_based_on_temps THRESHOLD_C temps_int =
          Except.ok ([Event.write (decide (min_temp < THRESHOLD_C))], min_temp)
        ∧ min_temp ∈ temps_int.map Prod.snd
        ∧ ∀ v ∈ temps_int.map Prod.snd, min_temp ≤ v)
    ∧ ∀ temps', temps_int.Perm temps' →
        set_output_based_on_temps THRESHOLD_C temps_int =
          set_output_based_on_temps THRESHOLD_C temps' := by
  have hvals : temps_int.map Prod.snd ≠ [] := by
    simpa using h
  obtain ⟨m, hm⟩ := pyMinList_eq_some_of_ne_nil hvals
  constructor
  · refine ⟨m, ?_, pyMinList_mem hm, pyMinList_le hm⟩
    unfold set_output_based_on_temps
    rw [hm]
    by_cases hc : m < THRESHOLD_C
    · simp [hc]
    · simp [hc]
  · intro temps' hp
    unfold set_output_based_on_temps
    rw [pyMinList_perm (hp.map Prod.snd)]

/-- C1 witness: a concrete two-probe sample and one of its permutations
yield the same decision. -/
theorem C1_witness :
    set_output_based_on_temps 10 [("a", 12), ("b", 8)] =
      set_output_based_on_temps 10 [("b", 8), ("a", 12)] :=
  (C1_decide_min_strict_threshold_order_independent 10 [("a", 12), ("b", 8)]
    (by decide)).2 [("b", 8), ("a", 12)] (by decide)

/-- C9: given an empty sample, the decision stage raises the `ValueError`
coming from `min` on an empty sequence (distinguishable by its message)
before any decision is produced or any GPIO write is performed. -/
theorem C9_empty_sample_errors_before_write (THRESHOLD_C : Int) :
    set_output_based_on_temps THRESHOLD_C [] =
      Except.error (PyError.valueError "min() arg is an empty sequence")
    ∧ ∀ evs min_temp, set_output_based_on_temps THRESHOLD_C [] ≠
        Except.ok (evs, min_temp) := by
  refine ⟨rfl, ?_⟩
  intro evs min_temp hcontra
  simp [set_output_based_on_temps, pyMinList] at hcontra

/-- C9 witness: the empty-sample error at the configured threshold. -/
theorem C9_witness :
    set_output_based_on_temps THRESHOLD_C [] =
      Except.error (PyError.valueError "min() arg is an empty sequence") :=
  (C9_empty_sample_errors_before_write THRESHOLD_C).1

/-- C2 counterexample: the conversion does not round ties away from zero.
A raw reading of 8500 milli-units is a tie; the code (Python 3 `round`,
half to even) yields 8, while the claimed away-from-zero rule yields 9. -/
theorem C2_counterexample_tie_not_away_from_zero :
    pythonRound ⟨8500⟩ = 8 ∧ roundHalfAwayFromZero ⟨8500⟩ = 9 ∧
      pythonRound ⟨8500⟩ ≠ roundHalfAwayFromZero ⟨8500⟩ := by decide

/-- C2 amended: the conversion of a raw reading in thousandths of a degree
rounds to the nearest integer with ties rounded to the even neighbour
(Python 3 banker's rounding), not away from zero; in particular a raw
reading of 9500 rounds to 10 (inactive at threshold 10) and 9499 rounds to
9 (active at threshold 10). -/
theorem C2_amended_round_half_to_even :
    (∀ t : TempC, (1000 * pythonRound t - t.milli).natAbs ≤ 500
      ∧ ((1000 * pythonRound t - t.milli).natAbs = 500 → pythonRound t % 2 = 0))
    ∧ pythonRound ⟨9500⟩ = 10 ∧ pythonRound ⟨9499⟩ = 9
    ∧ set_output_based_on_temps THRESHOLD_C [("28-A", pythonRound ⟨9500⟩)] =
        Except.ok ([Event.write false], 10)
    ∧ set_output_based_on_temps THRESHOLD_C [("28-A", pythonRound ⟨9499⟩)] =
        Except.ok ([Event.write true], 9) := by
  refine ⟨?_, by decide, by decide, by decide, by decide⟩
  intro t
  simp only [pythonRound]
  split_ifs <;> constructor <;> omega

/-- C2 witness: the tie-to-even rule applied at the concrete tie
reading -8500 milli-units, whose rounded value -8 is even. -/
theorem C2_witness : pythonRound ⟨(-8500 : Int)⟩ % 2 = 0 :=
  (C2_amended_round_half_to_even.1 ⟨(-8500 : Int)⟩).2 (by decide)

/-- C4 counterexample: a discovery pass yielding two probes with the same
probe id `28-A` does not make `read_all_temperatures_c` fail; it returns a
sample in which the second reading silently overwrote the first. -/
theorem C4_counterexample_duplicate_id_not_rejected :
    read_all_temperatures_c
        [("/sys/bus/w1/devices/28-A/temperature", "1000"),
         ("/other/28-A/temperature", "2000")] =
      Except.ok [("28-A", ⟨2000⟩)] := by decide

/-- C4 amended: when a discovery pass yields two probes with the same
probe_id and both raw values parse, `read_all_temperatures_c` does not
fail: it returns a sample with a single entry for that id holding the
later reading (dict assignment overwrites), and the cycle proceeds. -/
theorem C4_amended_duplicate_id_last_wins
    (p1 p2 r1 r2 d : String) (m1 m2 : Int)
    (h1 : sensorDirOf p1 = Except.ok d) (h2 : sensorDirOf p2 = Except.ok d)
    (g1 : pythonInt (pyStrip r1) = some m1) (g2 : pythonInt (pyStrip r2) = some m2) :
    read_all_temperatures_c [(p1, r1), (p2, r2)] = Except.ok [(d, ⟨m2⟩)] := by
  simp only [read_all_temperatures_c, readAllGo, List.isEmpty_cons, Bool.false_eq_true,
    if_false, h1, h2, g1, g2]
  simp [dictInsert]

/-- C4 witness: the amended behaviour at a concrete duplicated id. -/
theorem C4_witness :
    read_all_temperatures_c
        [("/sys/bus/w1/devices/28-B/temperature", "1500"),
         ("/other/28-B/temperature", "2500")] =
      Except.ok [("28-B", ⟨2500⟩)] :=
  C4_amended_duplicate_id_last_wins
    "/sys/bus/w1/devices/28-B/temperature" "/other/28-B/temperature"
    "1500" "2500" "28-B" 1500 2500 (by decide) (by decide) (by decide) (by decide)

/-- C3: whenever `send_temperatures` returns, it has performed no HTTP
request at all (the `requests.post` call is commented out in the source,
contradicting both the claim and the function's own docstring); the header
dict it builds carries an `Authorization` entry iff the bearer token is
configured (truthy), and the payload it builds is identical for every
token configuration. -/
theorem C3_payload_built_but_never_posted
    (tok : Option String) (temps_c : List (String × TempC))
    (temps_int : List (String × Int)) (min_temp_int : Int)
    (headers : List (String × String)) (payload : Payload) (reqs : List Event)
    (h : send_temperatures tok temps_c temps_int min_temp_int =
      Except.ok (headers, payload, reqs)) :
    reqs = []
    ∧ ((dictGet headers "Authorization").isSome = true ↔ pyTruthy tok = true)
    ∧ ∀ tok', ∃ headers', send_temperatures tok' temps_c temps_int min_temp_int =
        Except.ok (headers', payload, []) := by
  unfold send_temperatures at h
  cases hsg : sendGo temps_int temps_c with
  | error e => rw [hsg] at h; cases h
  | ok sensors_payload =>
    rw [hsg] at h
    injection h with h
    injection h with hh h
    injection h with hp hr
    subst hh hp hr
    refine ⟨rfl, ?_, ?_⟩
    · cases htok : pyTruthy tok <;> simp [htok, dictGet]
    · intro tok'
      unfold send_temperatures
      rw [hsg]
      exact ⟨_, rfl⟩

/-- C3 witness: from a concrete call with a configured token, the payload
without a token is the same and again no request is performed. -/
theorem C3_witness :
    ∃ headers', send_temperatures none [("28-A", ⟨9499⟩)] [("28-A", 9)] 9 =
      Except.ok (headers', ⟨"C", [⟨"28-A", ⟨9499⟩, 9⟩], 9⟩, []) :=
  (C3_payload_built_but_never_posted (some "secret") [("28-A", ⟨9499⟩)]
    [("28-A", 9)] 9
    [("Content-Type", "application/json"), ("Authorization", "Bearer secret")]
    ⟨"C", [⟨"28-A", ⟨9499⟩, 9⟩], 9⟩ [] (by decide)).2.2 none

lemma dictInsert_map_fst {α : Type} (d : List (String × α)) (k : String) (v : α) :
    (dictInsert d k v).map Prod.fst = d.map Prod.fst ∨
    (dictInsert d k v).map Prod.fst = d.map Prod.fst ++ [k] := by
  unfold dictInsert
  split_ifs with h
  · left
    rw [List.map_map]
    apply List.map_congr_left
    intro p _
    by_cases hp : p.1 = k <;> simp [hp]
  · right
    simp

lemma mem_dictInsert_key {α : Type} (d : List (String × α)) (k : String) (v : α) :
    k ∈ (dictInsert d k v).map Prod.fst := by
  unfold dictInsert
  split_ifs with h
  · rcases List.any_eq_true.mp h with ⟨p, hp, hpk⟩
    rw [List.map_map]
    refine List.mem_map.mpr ⟨p, hp, ?_⟩
    simp [of_decide_eq_true hpk]
  · simp

lemma mem_dictInsert_key_of_mem {α : Type} (d : List (String × α)) (k k' : String)
    (v : α) (h : k' ∈ d.map Prod.fst) : k' ∈ (dictInsert d k v).map Prod.fst := by
  rcases dictInsert_map_fst d k v with he | he <;> rw [he]
  · exact h
  · exact List.mem_append_left _ h

lemma readAllGo_ok_iff (l : List (String × String)) (acc : List (String × TempC))
    (hWF : ∀ e ∈ l, pathOk e = true) :
    (∃ r, readAllGo l acc = Except.ok r) ↔ ∀ e ∈ l, parsesOk e = true := by
  induction l generalizing acc with
  | nil => simp [readAllGo]
  | cons e rest ih =>
    obtain ⟨p, c⟩ := e
    have hp := hWF (p, c) (List.mem_cons_self _ _)
    unfold pathOk at hp
    cases hd : sensorDirOf p with
    | error f => rw [hd] at hp; cases hp
    | ok d =>
      simp only [readAllGo, hd]
      cases hg : pythonInt (pyStrip c) with
      | none =>
        constructor
        · rintro ⟨r, hr⟩; cases hr
        · intro hall
          have := hall (p, c) (List.mem_cons_self _ _)
          unfold parsesOk at this
          rw [hg] at this
          cases this
      | some m =>
        rw [ih (dictInsert acc d ⟨m⟩) (fun e he => hWF e (List.mem_cons_of_mem _ he))]
        constructor
        · intro hrest e he
          rcases List.mem_cons.mp he with rfl | he
          · unfold parsesOk; rw [hg]; rfl
          · exact hrest e he
        · intro hall e he
          exact hall e (List.mem_cons_of_mem _ he)

lemma readAllGo_error_parse (l : List (String × String)) (acc : List (String × TempC))
    (hWF : ∀ e ∈ l, pathOk e = true) (hbad : ∃ e ∈ l, parsesOk e = false) :
    ∃ p c d, (p, c) ∈ l ∧ pythonInt (pyStrip c) = none ∧
      sensorDirOf p = Except.ok d ∧
      readAllGo l acc = Except.error (PyError.valueError
        ("Could not parse temperature from '" ++ pyStrip c ++ "' for " ++ d)) := by
  induction l generalizing acc with
  | nil => rcases hbad with ⟨e, he, _⟩; cases he
  | cons e rest ih =>
    obtain ⟨p, c⟩ := e
    have hp := hWF (p, c) (List.mem_cons_self _ _)
    unfold pathOk at hp
    cases hd : sensorDirOf p with
    | error f => rw [hd] at hp; cases hp
    | ok d =>
      simp only [readAllGo, hd]
      cases hg : pythonInt (pyStrip c) with
      | none =>
        exact ⟨p, c, d, List.mem_cons_self _ _, hg, hd, rfl⟩
      | some m =>
        have hbad' : ∃ e ∈ rest, parsesOk e = false := by
          rcases hbad with ⟨e, he, hef⟩
          rcases List.mem_cons.mp he with rfl | he
          · unfold parsesOk at hef; rw [hg] at hef; cases hef
          · exact ⟨e, he, hef⟩
        obtain ⟨p', c', d', hmem, hg', hd', hrun⟩ :=
          ih (dictInsert acc d ⟨m⟩) (fun e he => hWF e (List.mem_cons_of_mem _ he)) hbad'
        exact ⟨p', c', d', List.mem_cons_of_mem _ hmem, hg', hd', hrun⟩

lemma readAllGo_keys (l : List (String × String)) (acc : List (String × TempC))
    (r : List (String × TempC)) (h : readAllGo l acc = Except.ok r) :
    (∀ k ∈ acc.map Prod.fst, k ∈ r.map Prod.fst) ∧
    (∀ e ∈ l, ∀ d, sensorDirOf e.1 = Except.ok d → d ∈ r.map Prod.fst) := by
  induction l generalizing acc with
  | nil =>
    injection h with h
    subst h
    exact ⟨fun k hk => hk, fun e he => absurd he (List.not_mem_nil e)⟩
  | cons e rest ih =>
    obtain ⟨p, c⟩ := e
    unfold readAllGo at h
    cases hd : sensorDirOf p with
    | error f => rw [hd] at h; cases h
    | ok d =>
      rw [hd] at h
      simp only at h
      cases hg : pythonInt (pyStrip c) with
      | none => rw [hg] at h; cases h
      | some m =>
        rw [hg] at h
        obtain ⟨hacc, hrest⟩ := ih (dictInsert acc d ⟨m⟩) h
        refine ⟨?_, ?_⟩
        · intro k hk
          exact hacc k (mem_dictInsert_key_of_mem acc d k ⟨m⟩ hk)
        · intro e he d' hd'
          rcases List.mem_cons.mp he with rfl | he
          · rw [hd] at hd'
            injection hd' with hd'
            subst hd'
            exact hacc d (mem_dictInsert_key acc d ⟨m⟩)
          · exact hrest e he d' hd'

/-- C7: `read_all_temperatures_c` succeeds iff at least one probe is
discovered and every discovered probe's raw value parses as an integer; it
fails with the no-sensors `FileNotFoundError` when zero probes are
discoverable, fails with a `ValueError` naming the probe directory and the
raw value when some probe's value is unparsable, and on success every
discovered probe id appears in the returned sample (no partial sample
exists on failure, the error being the only result). -/
theorem C7_read_all_complete_iff_all_parse (entries : List (String × String))
    (hWF : ∀ e ∈ entries, pathOk e = true) :
    ((∃ r, read_all_temperatures_c entries = Except.ok r) ↔
      (entries ≠ [] ∧ ∀ e ∈ entries, parsesOk e = true))
    ∧ (entries = [] → read_all_temperatures_c entries =
        Except.error (PyError.fileNotFoundError
          ("No sensors found matching " ++ SENSOR_GLOB)))
    ∧ ((∃ e ∈ entries, parsesOk e = false) →
        ∃ p c d, (p, c) ∈ entries ∧ pythonInt (pyStrip c) = none ∧
          sensorDirOf p = Except.ok d ∧
          read_all_temperatures_c entries = Except.error (PyError.valueError
            ("Could not parse temperature from '" ++ pyStrip c ++ "' for " ++ d)))
    ∧ (∀ r, read_all_temperatures_c entries = Except.ok r →
        ∀ e ∈ entries, ∀ d, sensorDirOf e.1 = Except.ok d → d ∈ r.map Prod.fst) := by
  rcases eq_or_ne entries [] with rfl | hne
  · refine ⟨?_, fun _ => rfl, ?_, ?_⟩
    · simp [read_all_temperatures_c]
    · rintro ⟨e, he, _⟩; cases he
    · intro r hr; cases hr
  · have hif : read_all_temperatures_c entries = readAllGo entries [] := by
      unfold read_all_temperatures_c
      rw [if_neg (by simpa [List.isEmpty_iff] using hne)]
    refine ⟨?_, fun he => absurd he hne, ?_, ?_⟩
    · rw [hif, readAllGo_ok_iff entries [] hWF]
      exact ⟨fun h => ⟨hne, h⟩, fun h => h.2⟩
    · intro hbad
      rw [hif]
      exact readAllGo_error_parse entries [] hWF hbad
    · intro r hr
      rw [hif] at hr
      exact (readAllGo_keys entries [] r hr).2

/-- C7 witness: a concrete one-probe discovery pass with parsable content
succeeds. -/
theorem C7_witness :
    ∃ r, read_all_temperatures_c
        [("/sys/bus/w1/devices/28-A/temperature", "9499\n")] = Except.ok r :=
  (C7_read_all_complete_iff_all_parse
    [("/sys/bus/w1/devices/28-A/temperature", "9499\n")] (by decide)).1.mpr
    (by decide)

lemma set_output_ok_shape (TH : Int) (t : List (String × Int)) (evs : List Event)
    (m : Int) (h : set_output_based_on_temps TH t = Except.ok (evs, m)) :
    evs = [Event.write (decide (m < TH))] := by
  unfold set_output_based_on_temps at h
  cases hm : pyMinList (t.map Prod.snd) with
  | none => rw [hm] at h; cases h
  | some mv =>
    rw [hm] at h
    dsimp only at h
    split_ifs at h with hc <;>
      (injection h with h; rw [Prod.mk.injEq] at h; obtain ⟨he, hm'⟩ := h;
       subst hm'; simp [hc, he.symm])

lemma send_ok_reqs (tok : Option String) (temps_c : List (String × TempC))
    (temps_int : List (String × Int)) (m : Int) (hd : List (String × String))
    (pl : Payload) (reqs : List Event)
    (h : send_temperatures tok temps_c temps_int m = Except.ok (hd, pl, reqs)) :
    reqs = [] := by
  unfold send_temperatures at h
  cases hsg : sendGo temps_int temps_c with
  | error e => rw [hsg] at h; cases h
  | ok s =>
    rw [hsg] at h
    injection h with h
    injection h with hh h
    injection h with hp hr
    exact hr.symm

lemma runCycle_enum (TH : Int) (tok : Option String) (inp : IterInput) :
    ((runCycle TH tok inp).2 = CycleRes.interrupted ∧ inp.intr ≠ none ∧
      (∀ k, inp.intr = some k → k ≤ 3) ∧
      ((runCycle TH tok inp).1 = [] ∨ ∃ b, (runCycle TH tok inp).1 = [Event.write b]))
    ∨ (∃ e, (runCycle TH tok inp).2 = CycleRes.errored e ∧
        ((runCycle TH tok inp).1 = [Event.errLog e] ∨
          ∃ b, (runCycle TH tok inp).1 = [Event.write b, Event.errLog e]))
    ∨ ((runCycle TH tok inp).2 = CycleRes.completed ∧
        (∀ k, inp.intr = some k → 4 ≤ k) ∧
        ∃ temps_c b min_temp,
          read_all_temperatures_c inp.entries = Except.ok temps_c ∧
          set_output_based_on_temps TH (tempsIntOf temps_c) =
            Except.ok ([Event.write b], min_temp) ∧
          (runCycle TH tok inp).1 = [Event.write b]) := by
  by_cases h0 : inp.intr = some 0
  · refine Or.inl ⟨by simp [runCycle, h0], by rw [h0]; simp, ?_, Or.inl (by simp [runCycle, h0])⟩
    intro k hk
    rw [h0] at hk
    injection hk with hk
    omega
  · cases hr : read_all_temperatures_c inp.entries with
    | error e =>
      exact Or.inr (Or.inl ⟨e, by simp [runCycle, h0, hr], Or.inl (by simp [runCycle, h0, hr])⟩)
    | ok temps_c =>
      by_cases h1 : inp.intr = some 1
      · refine Or.inl ⟨by simp [runCycle, h0, hr, h1], by rw [h1]; simp, ?_,
          Or.inl (by simp [runCycle, h0, hr, h1])⟩
        intro k hk
        rw [h1] at hk
        injection hk with hk
        omega
      · by_cases h2 : inp.intr = some 2
        · refine Or.inl ⟨by simp [runCycle, h0, hr, h1, h2], by rw [h2]; simp, ?_,
            Or.inl (by simp [runCycle, h0, hr, h1, h2])⟩
          intro k hk
          rw [h2] at hk
          injection hk with hk
          omega
        · cases hs : set_output_based_on_temps TH (tempsIntOf temps_c) with
          | error e =>
            exact Or.inr (Or.inl ⟨e, by simp [runCycle, h0, hr, h1, h2, hs],
              Or.inl (by simp [runCycle, h0, hr, h1, h2, hs])⟩)
          | ok pr =>
            obtain ⟨evs, min_temp⟩ := pr
            obtain rfl := set_output_ok_shape TH (tempsIntOf temps_c) evs min_temp hs
            by_cases h3 : inp.intr = some 3
            · refine Or.inl ⟨by simp [runCycle, h0, hr, h1, h2, hs, h3], by rw [h3]; simp, ?_,
                Or.inr ⟨decide (min_temp < TH), by simp [runCycle, h0, hr, h1, h2, hs, h3]⟩⟩
              intro k hk
              rw [h3] at hk
              injection hk with hk
              omega
            · cases hsend : send_temperatures tok temps_c (tempsIntOf temps_c) min_temp with
              | error e =>
                exact Or.inr (Or.inl ⟨e, by simp [runCycle, h0, hr, h1, h2, hs, h3, hsend],
                  Or.inr ⟨decide (min_temp < TH), by simp [runCycle, h0, hr, h1, h2, hs, h3, hsend]⟩⟩)
              | ok trip =>
                obtain ⟨hd, pl, reqs⟩ := trip
                obtain rfl := send_ok_reqs tok temps_c (tempsIntOf temps_c) min_temp hd pl reqs hsend
                refine Or.inr (Or.inr ⟨by simp [runCycle, h0, hr, h1, h2, hs, h3, hsend], ?_,
                  temps_c, decide (min_temp < TH), min_temp, rfl, hs,
                  by simp [runCycle, h0, hr, h1, h2, hs, h3, hsend]⟩)
                intro k hk
                rw [hk] at h0 h1 h2 h3
                have k0 : k ≠ 0 := fun e => h0 (by rw [e])
                have k1 : k ≠ 1 := fun e => h1 (by rw [e])
                have k2 : k ≠ 2 := fun e => h2 (by rw [e])
                have k3 : k ≠ 3 := fun e => h3 (by rw [e])
                omega

lemma runCycle_no_setup_cleanup (TH : Int) (tok : Option String) (inp : IterInput) :
    Event.setup ∉ (runCycle TH tok inp).1 ∧ Event.cleanup ∉ (runCycle TH tok inp).1 := by
  rcases runCycle_enum TH tok inp with
      ⟨_, _, _, hev | ⟨b, hev⟩⟩ | ⟨e, _, hev | ⟨b, hev⟩⟩ | ⟨_, _, tc, b, m, _, _, hev⟩ <;>
    rw [hev] <;> simp

lemma runCycle_res_ne_interrupted (TH : Int) (tok : Option String) (inp : IterInput)
    (h : inp.intr = none) : (runCycle TH tok inp).2 ≠ CycleRes.interrupted := by
  rcases runCycle_enum TH tok inp with ⟨_, hni, _⟩ | ⟨e, hres, _⟩ | ⟨hres, _⟩
  · exact absurd h hni
  · rw [hres]; simp
  · rw [hres]; simp

lemma runLoop_some_shape (TH : Int) (tok : Option String) :
    ∀ (inputs : List IterInput) (t : List Event), runLoop TH tok inputs = some t →
      ∃ t0, t = t0 ++ [Event.cleanup] ∧ Event.setup ∉ t0 ∧ Event.cleanup ∉ t0 := by
  intro inputs
  induction inputs with
  | nil => intro t h; cases h
  | cons inp rest ih =>
    intro t h
    obtain ⟨hsetup, hcleanup⟩ := runCycle_no_setup_cleanup TH tok inp
    unfold runLoop at h
    rcases hc : runCycle TH tok inp with ⟨evs, res⟩
    rw [hc] at h hsetup hcleanup
    dsimp only at h hsetup hcleanup
    cases res with
    | interrupted =>
      injection h with h
      exact ⟨evs, h.symm, hsetup, hcleanup⟩
    | errored e =>
      dsimp only at h
      split_ifs at h with hsi
      · injection h with h
        exact ⟨evs, h.symm, hsetup, hcleanup⟩
      · cases hrl : runLoop TH tok rest with
        | none => rw [hrl] at h; cases h
        | some t' =>
          rw [hrl] at h
          simp only [Option.map_some'] at h
          injection h with h
          obtain ⟨t0', ht', hs', hc'⟩ := ih t' hrl
          refine ⟨evs ++ t0', ?_, ?_, ?_⟩
          · rw [← h, ht', List.append_assoc]
          · intro hmem
            rcases List.mem_append.mp hmem with hm | hm
            · exact hsetup hm
            · exact hs' hm
          · intro hmem
            rcases List.mem_append.mp hmem with hm | hm
            · exact hcleanup hm
            · exact hc' hm
    | completed =>
      dsimp only at h
      split_ifs at h with hsi
      · injection h with h
        exact ⟨evs, h.symm, hsetup, hcleanup⟩
      · cases hrl : runLoop TH tok rest with
        | none => rw [hrl] at h; cases h
        | some t' =>
          rw [hrl] at h
          simp only [Option.map_some'] at h
          injection h with h
          obtain ⟨t0', ht', hs', hc'⟩ := ih t' hrl
          refine ⟨evs ++ t0', ?_, ?_, ?_⟩
          · rw [← h, ht', List.append_assoc]
          · intro hmem
            rcases List.mem_append.mp hmem with hm | hm
            · exact hsetup hm
            · exact hs' hm
          · intro hmem
            rcases List.mem_append.mp hmem with hm | hm
            · exact hcleanup hm
            · exact hc' hm

lemma main_some_shape (TH : Int) (tok : Option String) (inputs : List IterInput)
    (t : List Event) (h : main TH tok inputs = some t) :
    t.head? = some Event.setup ∧ t.count Event.setup = 1 ∧
    t.count Event.cleanup = 1 ∧ t.getLast? = some Event.cleanup := by
  unfold main at h
  cases hrl : runLoop TH tok inputs with
  | none => rw [hrl] at h; cases h
  | some t' =>
    rw [hrl] at h
    simp only [Option.map_some'] at h
    injection h with h
    subst h
    obtain ⟨t0, rfl, hs, hc⟩ := runLoop_some_shape TH tok inputs t' hrl
    have hs0 : t0.count Event.setup = 0 := List.count_eq_zero.mpr hs
    have hc0 : t0.count Event.cleanup = 0 := List.count_eq_zero.mpr hc
    refine ⟨rfl, ?_, ?_, ?_⟩
    · rw [List.count_cons_self, List.count_append, hs0]
      decide
    · rw [List.count_cons_of_ne (by decide), List.count_append, hc0]
      decide
    · show ((Event.setup :: t0) ++ [Event.cleanup]).getLast? = some Event.cleanup
      exact List.getLast?_concat _

/-- C8: whenever the cycle body runs to completion, exactly one decision is
computed (one successful `set_output_based_on_temps` call on the rounded
sample) and exactly one GPIO write is attempted - the cycle's entire effect
is that single write, whatever the telemetry step did. -/
theorem C8_one_decision_one_write_per_completed_cycle
    (THRESHOLD_C : Int) (API_TOKEN : Option String) (inp : IterInput)
    (h : (runCycle THRESHOLD_C API_TOKEN inp).2 = CycleRes.completed) :
    ∃ temps_c b min_temp,
      read_all_temperatures_c inp.entries = Except.ok temps_c ∧
      set_output_based_on_temps THRESHOLD_C (tempsIntOf temps_c) =
        Except.ok ([Event.write b], min_temp) ∧
      (runCycle THRESHOLD_C API_TOKEN inp).1 = [Event.write b] ∧
      (runCycle THRESHOLD_C API_TOKEN inp).1.countP (fun ev => isWrite ev) = 1 := by
  rcases runCycle_enum THRESHOLD_C API_TOKEN inp with
      ⟨hres, _⟩ | ⟨e, hres, _⟩ | ⟨_, _, temps_c, b, min_temp, h1, h2, h3⟩
  · rw [h] at hres; cases hres
  · rw [h] at hres; cases hres
  · exact ⟨temps_c, b, min_temp, h1, h2, h3, by rw [h3]; simp [isWrite]⟩

/-- C8 witness: a completed cycle at a concrete one-probe discovery pass. -/
theorem C8_witness :
    ∃ temps_c b min_temp,
      read_all_temperatures_c [("/sys/bus/w1/devices/28-A/temperature", "9499")] =
        Except.ok temps_c ∧
      set_output_based_on_temps THRESHOLD_C (tempsIntOf temps_c) =
        Except.ok ([Event.write b], min_temp) ∧
      (runCycle THRESHOLD_C API_TOKEN
        ⟨none, [("/sys/bus/w1/devices/28-A/temperature", "9499")]⟩).1 = [Event.write b] ∧
      (runCycle THRESHOLD_C API_TOKEN
        ⟨none, [("/sys/bus/w1/devices/28-A/temperature", "9499")]⟩).1.countP
          (fun ev => isWrite ev) = 1 :=
  C8_one_decision_one_write_per_completed_cycle THRESHOLD_C API_TOKEN
    ⟨none, [("/sys/bus/w1/devices/28-A/temperature", "9499")]⟩ (by decide)

/-- C5: on every terminating run of `main`, the trace starts with the
one-time `GPIO.setup(..., initial=GPIO.LOW)` (the safe default, before any
cycle) and ends with the one-time `GPIO.cleanup()` of the `finally` block;
each occurs exactly once, on every termination path, including runs where
no cycle ever completed. -/
theorem C5_safe_default_once_at_start_and_end
    (THRESHOLD_C : Int) (API_TOKEN : Option String) (inputs : List IterInput)
    (t : List Event) (h : main THRESHOLD_C API_TOKEN inputs = some t) :
    t.head? = some Event.setup ∧ t.count Event.setup = 1 ∧
    t.count Event.cleanup = 1 ∧ t.getLast? = some Event.cleanup :=
  main_some_shape THRESHOLD_C API_TOKEN inputs t h

/-- C5 witness: a run interrupted before its first cycle still performs
setup and cleanup exactly once. -/
theorem C5_witness :
    [Event.setup, Event.cleanup].count Event.cleanup = 1 :=
  (C5_safe_default_once_at_start_and_end 10 none [⟨some 0, []⟩]
    [Event.setup, Event.cleanup] (by decide)).2.2.1

lemma runLoop_calm_prefix (TH : Int) (tok : Option String) (pre : List IterInput)
    (hpre : ∀ i ∈ pre, i.intr = none) :
    ∃ pe, ∀ l, runLoop TH tok (pre ++ l) =
      (runLoop TH tok l).map (fun t => pe ++ t) := by
  induction pre with
  | nil =>
    refine ⟨[], fun l => ?_⟩
    cases hl : runLoop TH tok l <;> simp [hl]
  | cons i pre' ih =>
    obtain ⟨pe', hpe'⟩ := ih (fun j hj => hpre j (List.mem_cons_of_mem _ hj))
    have hi : i.intr = none := hpre i (List.mem_cons_self _ _)
    rcases hc : runCycle TH tok i with ⟨evs, res⟩
    have hni : res ≠ CycleRes.interrupted := by
      have := runCycle_res_ne_interrupted TH tok i hi
      rw [hc] at this
      exact this
    refine ⟨evs ++ pe', fun l => ?_⟩
    have h1 : runLoop TH tok ((i :: pre') ++ l) =
        (runLoop TH tok (pre' ++ l)).map (fun t => evs ++ t) := by
      show runLoop TH tok (i :: (pre' ++ l)) = _
      simp only [runLoop]
      rw [hc]
      dsimp only
      cases res with
      | interrupted => exact absurd rfl hni
      | errored e =>
        dsimp only
        rw [hi, show sleepInterrupt none (CycleRes.errored e) = false from rfl]
        simp
      | completed =>
        dsimp only
        rw [hi, show sleepInterrupt none CycleRes.completed = false from rfl]
        simp
    rw [h1, hpe' l]
    cases runLoop TH tok l with
    | none => simp
    | some t => simp

lemma runLoop_stops_at_interrupt (TH : Int) (tok : Option String) (x : IterInput)
    (hx : x.intr.isSome = true) :
    ∃ evs, ∀ post, runLoop TH tok (x :: post) = some (evs ++ [Event.cleanup]) := by
  obtain ⟨k, hk⟩ := Option.isSome_iff_exists.mp hx
  rcases hc : runCycle TH tok x with ⟨evs, res⟩
  refine ⟨evs, fun post => ?_⟩
  unfold runLoop
  rw [hc]
  dsimp only
  cases res with
  | interrupted => rfl
  | errored e =>
    dsimp only
    rw [hk, show sleepInterrupt (some k) (CycleRes.errored e) = true from rfl]
    simp
  | completed =>
    dsimp only
    have h4 : 4 ≤ k := by
      rcases runCycle_enum TH tok x with ⟨hres, _⟩ | ⟨e, hres, _⟩ | ⟨_, hks, _⟩
      · rw [hc] at hres; cases hres
      · rw [hc] at hres; cases hres
      · exact hks k hk
    have hb : sleepInterrupt (some k) CycleRes.completed = true := by
      show decide (4 ≤ k) = true
      exact decide_eq_true h4
    rw [hk, hb]
    simp

/-- C10: a `KeyboardInterrupt` delivered during iteration `x` - at any
body point or in the sleep - escapes the per-cycle `except Exception`
handler: the loop terminates at `x` (later inputs are irrelevant to the
trace), the `finally` cleanup runs exactly once at the end, and an
interrupt that fired inside the body did not produce the skipped-cycle
error log. -/
theorem C10_interrupt_never_absorbed_by_cycle_isolation
    (THRESHOLD_C : Int) (API_TOKEN : Option String) (pre : List IterInput)
    (x : IterInput) (post : List IterInput)
    (hpre : ∀ i ∈ pre, i.intr = none) (hx : x.intr.isSome = true) :
    (∃ t, main THRESHOLD_C API_TOKEN (pre ++ x :: post) = some t ∧
      t.getLast? = some Event.cleanup ∧ t.count Event.cleanup = 1)
    ∧ (∀ post', main THRESHOLD_C API_TOKEN (pre ++ x :: post) =
        main THRESHOLD_C API_TOKEN (pre ++ x :: post'))
    ∧ ((runCycle THRESHOLD_C API_TOKEN x).2 = CycleRes.interrupted →
        ∀ e, Event.errLog e ∉ (runCycle THRESHOLD_C API_TOKEN x).1) := by
  obtain ⟨pe, hpe⟩ := runLoop_calm_prefix THRESHOLD_C API_TOKEN pre hpre
  obtain ⟨evs, hstop⟩ := runLoop_stops_at_interrupt THRESHOLD_C API_TOKEN x hx
  have hrl : ∀ q, runLoop THRESHOLD_C API_TOKEN (pre ++ x :: q) =
      some (pe ++ (evs ++ [Event.cleanup])) := by
    intro q
    rw [hpe (x :: q), hstop q]
    simp
  have hmain : ∀ q, main THRESHOLD_C API_TOKEN (pre ++ x :: q) =
      some (Event.setup :: (pe ++ (evs ++ [Event.cleanup]))) := by
    intro q
    unfold main
    rw [hrl q]
    simp
  refine ⟨⟨Event.setup :: (pe ++ (evs ++ [Event.cleanup])), hmain post, ?_, ?_⟩,
    fun post' => by rw [hmain post, hmain post'], ?_⟩
  · exact (main_some_shape THRESHOLD_C API_TOKEN (pre ++ x :: post) _ (hmain post)).2.2.2
  · exact (main_some_shape THRESHOLD_C API_TOKEN (pre ++ x :: post) _ (hmain post)).2.2.1
  · intro hres e
    rcases runCycle_enum THRESHOLD_C API_TOKEN x with
        ⟨_, _, _, hev | ⟨b, hev⟩⟩ | ⟨e', hres', _⟩ | ⟨hres', _⟩
    · rw [hev]; simp
    · rw [hev]; simp
    · rw [hres] at hres'; cases hres'
    · rw [hres] at hres'; cases hres'

/-- C10 witness: with an interrupt scheduled before the first statement of
the first cycle, the input after the interrupted iteration does not change
the run. -/
theorem C10_witness :
    main 10 none [⟨some 0, []⟩, ⟨none, []⟩] = main 10 none [⟨some 0, []⟩] :=
  (C10_interrupt_never_absorbed_by_cycle_isolation 10 none [] ⟨some 0, []⟩
    [⟨none, []⟩] (fun i hi => absurd hi (List.not_mem_nil i)) rfl).2.1 []

/-- C6: the telemetry step of this code performs no HTTP request and
cannot fail (the `requests.post` call and its local `try/except` are
commented out); across three consecutive completed cycles the GPIO write
is applied each cycle, the loop never crashes, and no POST event occurs. -/
theorem C6_telemetry_noop_three_cycles :
    main THRESHOLD_C API_TOKEN
        [⟨none, [("/sys/bus/w1/devices/28-A/temperature", "9499")]⟩,
         ⟨none, [("/sys/bus/w1/devices/28-A/temperature", "9499")]⟩,
         ⟨some 4, [("/sys/bus/w1/devices/28-A/temperature", "9499")]⟩] =
      some [Event.setup, Event.write true, Event.write true, Event.write true,
        Event.cleanup]
    ∧ Event.httpPost ∉ [Event.setup, Event.write true, Event.write true,
        Event.write true, Event.cleanup]
    ∧ send_temperatures (some "tok") [("28-A", ⟨9499⟩)] [("28-A", 9)] 9 =
        Except.ok ([("Content-Type", "application/json"),
          ("Authorization", "Bearer tok")],
          ⟨"C", [⟨"28-A", ⟨9499⟩, 9⟩], 9⟩, []) := by
  refine ⟨by decide, by decide, by decide⟩

end TempSensorScript
